import Mathlib

/-!
# Verification of the DarkExchange TON escrow bot (`src/main.py`)

Shallow embedding of the escrow core of `main.py`: the fee computation of
`handle_amount_input`, the address validator `is_valid_ton_address`, the
session handlers (`start_handler`, `escrow_entry`,
`handle_seller_wallet_input`, `handle_amount_input`,
`handle_text_messages`), the payment monitor `monitor_payment` and the
release orchestrator `process_escrow_release`.

Modelling conventions:
* machine floats are modelled as exact rationals (`ℚ`); Python `round(x, 6)`
  is round-half-to-even at six decimal places;
* the in-memory dicts `user_sessions` / `escrow_wallets` are total functions
  into `Option`;
* external collaborators (balance oracle, payout broadcasts, provisioner,
  clock) are input parameters; notifications are collected in a message list;
* the monitor loop is driven by explicit fuel; the Python loop body runs at
  most `max_checks` times on well-formed stores, so fuel `max_checks + 1`
  reproduces every run of the source.
-/

namespace DarkExchange

/-! ## Configuration constants (module level constants of `main.py`) -/

/-- Constant `FEE_PERCENTAGE = 0.05` (5% fee). -/
def FEE_PERCENTAGE : ℚ := 5 / 100

/-- Constant `PAYMENT_TIMEOUT_MINUTES = 60`. -/
def PAYMENT_TIMEOUT_MINUTES : ℕ := 60

/-- Constant `PAYMENT_CHECK_INTERVAL = 30` (seconds). -/
def PAYMENT_CHECK_INTERVAL : ℕ := 30

/-- Default `FEE_WALLET` address from `main.py`. -/
def FEE_WALLET : String := "UQAg3mG5c-QFD_KQQBzJMkd94y_r5pkAFegBijQr3LEbBWZ2"

/-! ## Rounding and the fee split (`handle_amount_input`, lines 489-494)

Python's `round(x, 6)` rounds half to even at the sixth decimal place.
-/

/-- Round a rational to the nearest integer, ties to even
(the rounding mode of Python's builtin `round`). -/
def roundHalfEven (x : ℚ) : ℤ :=
  let f : ℤ := ⌊x⌋
  let r : ℚ := x - f
  if r < 1 / 2 then f
  else if 1 / 2 < r then f + 1
  else if f % 2 = 0 then f else f + 1

/-- Python `round(x, 6)`: round half to even at six decimal places. -/
def round6 (x : ℚ) : ℚ := (roundHalfEven (x * 1000000) : ℚ) / 1000000

/-- Line 489: `fee_amount = round(amount * FEE_PERCENTAGE, 6)`. -/
def fee_amount (amount : ℚ) : ℚ := round6 (amount * FEE_PERCENTAGE)

/-- Line 490: `seller_amount = round(amount - fee_amount, 6)`. -/
def seller_amount (amount : ℚ) : ℚ := round6 (amount - fee_amount amount)

theorem roundHalfEven_intCast (n : ℤ) : roundHalfEven (n : ℚ) = n := by
  simp [roundHalfEven]

/-- The function `round6` is the identity on multiples of `10⁻⁶`. -/
theorem round6_of_den_dvd (k : ℤ) : round6 ((k : ℚ) / 1000000) = (k : ℚ) / 1000000 := by
  have h : ((k : ℚ) / 1000000) * 1000000 = (k : ℚ) := by
    field_simp
  rw [round6, h, roundHalfEven_intCast]

/-! ## Address validation (`is_valid_ton_address`, lines 60-82) -/

/-- Python `str.strip()` on a character list. -/
def pyStripList (l : List Char) : List Char :=
  ((l.dropWhile Char.isWhitespace).reverse.dropWhile Char.isWhitespace).reverse

/-- Python `str.strip()` on the ASCII whitespace relevant here. -/
def pyStrip (s : String) : String := String.mk (pyStripList s.toList)

/-- The character class of the regex `[A-Za-z0-9_-]`. -/
def base64url_char (c : Char) : Bool :=
  (('A' ≤ c && c ≤ 'Z') || ('a' ≤ c && c ≤ 'z') || ('0' ≤ c && c ≤ '9')
    || c = '_' || c = '-')

/-- Truthiness of `re.match(r'^[A-Za-z0-9_-]+$', ·)`: a nonempty all-alphabet
string. -/
def matches_b64url (l : List Char) : Bool :=
  !l.isEmpty && l.all base64url_char

/-- Line 70: `valid_prefixes = ['EQ', 'UQ', 'kQ', '0Q']`. -/
def valid_prefixes : List String := ["EQ", "UQ", "kQ", "0Q"]

/-- Python `str.startswith`, on character lists. -/
def startswith : List Char → List Char → Bool
  | [], _ => true
  | _ :: _, [] => false
  | c :: p, d :: l => c = d && startswith p l

/-- The body of `is_valid_ton_address` after the `strip()` of line 63:
length 48-50 (line 66), recognized prefix (line 71), remainder matching
`^[A-Za-z0-9_-]+$` (line 76). -/
def valid_core (l : List Char) : Bool :=
  if l.length < 48 ∨ 50 < l.length then false
  else if ¬ ∃ p ∈ valid_prefixes, startswith p.toList l = true then false
  else matches_b64url (l.drop 2)

/-- Function `is_valid_ton_address` (lines 60-82): strip, then `valid_core`. -/
def is_valid_ton_address (address : String) : Bool :=
  valid_core (pyStripList address.toList)

/-- The acceptance condition exactly as the spec words it, on a character
list (prefix, length bound, alphabet-only remainder). -/
def spec_accepts_core (l : List Char) : Prop :=
  48 ≤ l.length ∧ l.length ≤ 50 ∧
    (∃ p ∈ valid_prefixes, startswith p.toList l = true) ∧
    ∀ c ∈ l.drop 2, base64url_char c = true

/-- The acceptance condition exactly as the spec words it, as a predicate on
the given string itself. -/
def spec_accepts_address (a : String) : Prop := spec_accepts_core a.toList

instance (l : List Char) : Decidable (spec_accepts_core l) := by
  unfold spec_accepts_core; infer_instance

instance (a : String) : Decidable (spec_accepts_address a) := by
  unfold spec_accepts_address; infer_instance

/-! ## Input sanitation (`sanitize_user_input`, lines 237-246) -/

/-- The character class removed by `re.sub(r'[<>"\'\(\){}[\]\\]', '', ·)`:
`<ANGLE> > " ' ( ) <BRACES> [ ] \`, given here by code point. -/
def dangerous_char (c : Char) : Bool :=
  c.toNat = 60 || c.toNat = 62 || c.toNat = 34 || c.toNat = 39 ||
  c.toNat = 40 || c.toNat = 41 || c.toNat = 123 || c.toNat = 125 ||
  c.toNat = 91 || c.toNat = 93 || c.toNat = 92

/-- Function `sanitize_user_input`: strip, drop dangerous characters, truncate. -/
def sanitize_user_input (text : String) (max_length : ℕ) : String :=
  String.mk (((pyStrip text).toList.filter fun c => !dangerous_char c).take
    max_length)

/-! ## Data model: sessions, wallet records, stores, notifications -/

/-- The values of `session["step"]` in `main.py`. -/
inductive Step where
  | waiting_seller_wallet
  | waiting_amount
  | generating_wallet
  | completed
  deriving DecidableEq, Repr

/-- A `user_sessions[user_id]` dict.  Keys that are added as the session
advances are `Option`-valued. -/
structure Session where
  step : Step
  started_at : ℕ
  seller_wallet : Option String := none
  amount : Option ℚ := none
  fee_amount : Option ℚ := none
  seller_amount : Option ℚ := none
  escrow_address : Option String := none
  escrow_private_key : Option String := none
  transaction_id : Option String := none
  deriving DecidableEq, Repr

/-- An `escrow_wallets[transaction_id]` dict (lines 517-527).  The
`wallet_object` handle is represented by the private key it wraps. -/
structure WalletRecord where
  address : String
  private_key : String
  user_id : ℕ
  seller_wallet : String
  amount : ℚ
  fee_amount : ℚ
  seller_amount : ℚ
  status : String
  created_timestamp : ℕ
  transaction_id : String
  deriving DecidableEq, Repr

/-- The session store `user_sessions`. -/
def SessionStore : Type := ℕ → Option Session

/-- The wallet-record store `escrow_wallets`. -/
def WalletStore : Type := String → Option WalletRecord

/-- Map update, `store[k] = v`. -/
def mapSet {α β : Type} [DecidableEq α] (m : α → Option β) (k : α) (v : β) :
    α → Option β :=
  fun k' => if k' = k then some v else m k'

/-- Conditional delete, `if k in store: del store[k]`. -/
def mapDel {α β : Type} [DecidableEq α] (m : α → Option β) (k : α) :
    α → Option β :=
  fun k' => if k' = k then none else m k'

/-- The outbound notifications of `main.py`, by message kind with the data
interpolated into the message text. -/
inductive Msg where
  | welcome
  | tooOld
  | promptStart
  | sessionExpired
  | menuPrompt
  | escrowActive
  | promptSellerWallet
  | emptyAddress
  | invalidAddress
  | feeWalletConflict
  | sellerSaved (addr : String)
  | invalidNumber
  | amountNotPositive
  | generatingWallet
  | walletGenFailed
  | processingTransfers
  | criticalNoRecord (escrowAddr : String)
  | releaseSuccess (amount seller fee : ℚ) (sellerAddr escrowAddr : String)
  | partialSuccess (seller fee : ℚ)
  | paymentFailed (amount : ℚ) (escrowAddr : String)
  | statusUpdate (checkIdx : ℕ) (expected observed : ℚ)
  | timeoutNotice (escrowAddr : String)
  | criticalRelease (escrowAddr : String) (userId : ℕ)
  deriving DecidableEq, Repr

/-! ## `/start` handler (`start_handler`, lines 248-272) -/

/-- Result of a handler that can touch both stores. -/
structure HandlerResult where
  sessions : SessionStore
  wallets : WalletStore
  msgs : List Msg

/-- Handler `start_handler`: greet, then `if user_id in user_sessions: del`.
`escrow_wallets` is not referenced. -/
def start_handler (user_id : ℕ) (sessions : SessionStore)
    (wallets : WalletStore) : HandlerResult :=
  { sessions := mapDel sessions user_id
    wallets := wallets
    msgs := [Msg.welcome] }

/-! ## `start_escrow` callback (`escrow_entry`, lines 321-357) -/

/-- Result of `escrow_entry`; `rejected` records the early return taken when
an active escrow exists. -/
structure EntryResult where
  sessions : SessionStore
  rejected : Bool
  msgs : List Msg

/-- Handler `escrow_entry`: reject iff an existing session has step `completed`;
otherwise install a fresh session at `waiting_seller_wallet`. -/
def escrow_entry (user_id : ℕ) (now : ℕ) (sessions : SessionStore) :
    EntryResult :=
  match sessions user_id with
  | some s =>
    if s.step = Step.completed then
      { sessions := sessions, rejected := true, msgs := [Msg.escrowActive] }
    else
      { sessions := mapSet sessions user_id
          { step := Step.waiting_seller_wallet, started_at := now }
        rejected := false
        msgs := [Msg.promptSellerWallet] }
  | none =>
    { sessions := mapSet sessions user_id
        { step := Step.waiting_seller_wallet, started_at := now }
      rejected := false
      msgs := [Msg.promptSellerWallet] }

/-! ## Seller-address input (`handle_seller_wallet_input`, lines 411-462) -/

/-- Handler `handle_seller_wallet_input`, acting on the session dict in place. -/
def handle_seller_wallet_input (sess : Session) (text : String) :
    Session × List Msg :=
  let wallet_address := sanitize_user_input (pyStrip text) 50
  if wallet_address = "" then (sess, [Msg.emptyAddress])
  else if ¬ is_valid_ton_address wallet_address then (sess, [Msg.invalidAddress])
  else if wallet_address = FEE_WALLET then (sess, [Msg.feeWalletConflict])
  else
    ({ sess with seller_wallet := some wallet_address,
                 step := Step.waiting_amount },
     [Msg.sellerSaved wallet_address])

/-! ## Amount input and provisioning (`handle_amount_input`, lines 464-563) -/

/-- Outcome of `generate_escrow_wallet()`: a fresh address/key pair or the
exception path. -/
inductive ProvisionOutcome where
  | ok (address private_key : String)
  | fail
  deriving DecidableEq, Repr

/-- Result of `handle_amount_input`: both stores, the messages, and the
transaction id of any monitor task the handler spawned.  The source's
success path (lines 509-547) is unreachable — see `handle_amount_input` —
so `spawned` is always `none` and the wallet store is never written. -/
structure AmountResult where
  sessions : SessionStore
  wallets : WalletStore
  msgs : List Msg
  spawned : Option String

/-- Handler `handle_amount_input`.  Here `parsedAmount` is the outcome of Python
`float(...)` on the sanitized text (`none` = `ValueError`); `prov` is the
outcome of `generate_escrow_wallet()`; `now` is `int(time.time())`.  The
Lean binder `user_id` stands for `msg.from_user.id`, the key under which the
caller stores the session dict.

The Python function itself never binds a local `user_id` (only line 547
spells out `msg.from_user.id`), and no global of that name exists, so
line 509 — `transaction_id = f"..."` interpolating the bare name
`user_id` — raises `NameError` whenever `generate_escrow_wallet()`
succeeds.  The `except` at line 549 catches it exactly like a provisioning
failure: lines 511-547 (id issuance, step `completed`, wallet record,
monitor spawn, success message) are dead code, and both `prov` outcomes
reset the step to `waiting_amount` and send the failure notification. -/
def handle_amount_input (user_id now : ℕ) (sess : Session)
    (parsedAmount : Option ℚ) (prov : ProvisionOutcome)
    (sessions : SessionStore) (wallets : WalletStore) : AmountResult :=
  match parsedAmount with
  | none =>
    { sessions := sessions, wallets := wallets,
      msgs := [Msg.invalidNumber], spawned := none }
  | some amount =>
    if amount ≤ 0 then
      { sessions := sessions, wallets := wallets,
        msgs := [Msg.amountNotPositive], spawned := none }
    else
      let fee := fee_amount amount
      let seller := seller_amount amount
      let s₁ : Session :=
        { sess with amount := some amount, fee_amount := some fee,
                    seller_amount := some seller,
                    step := Step.generating_wallet }
      match prov with
      | ProvisionOutcome.fail =>
        let s₂ : Session := { s₁ with step := Step.waiting_amount }
        { sessions := mapSet sessions user_id s₂
          wallets := wallets
          msgs := [Msg.generatingWallet, Msg.walletGenFailed]
          spawned := none }
      | ProvisionOutcome.ok _ _ =>
        -- line 509 raises `NameError` on the unbound Python name `user_id`;
        -- the `except` at line 549 lands in the same failure handling
        let s₂ : Session := { s₁ with step := Step.waiting_amount }
        { sessions := mapSet sessions user_id s₂
          wallets := wallets
          msgs := [Msg.generatingWallet, Msg.walletGenFailed]
          spawned := none }

/-! ## Text-message routing (`handle_text_messages`, lines 359-409) -/

/-- Result of one routed text message, including the id of any monitor task
spawned on the way. -/
structure TextResult where
  sessions : SessionStore
  wallets : WalletStore
  msgs : List Msg
  spawned : Option String

/-- Handler `handle_text_messages`: staleness gate, session-existence gate, session
TTL gate, then dispatch on `session["step"]`.  `msgTime` is the message's
timestamp, `now` the current clock. -/
def handle_text_messages (user_id : ℕ) (msgTime now : ℕ) (text : String)
    (parsedAmount : Option ℚ) (prov : ProvisionOutcome)
    (sessions : SessionStore) (wallets : WalletStore) : TextResult :=
  if 300 < now - msgTime then
    { sessions := sessions, wallets := wallets, msgs := [Msg.tooOld],
      spawned := none }
  else
    match sessions user_id with
    | none =>
      { sessions := sessions, wallets := wallets, msgs := [Msg.promptStart],
        spawned := none }
    | some s =>
      if 1800 < now - s.started_at then
        { sessions := mapDel sessions user_id, wallets := wallets,
          msgs := [Msg.sessionExpired], spawned := none }
      else
        match s.step with
        | Step.waiting_seller_wallet =>
          let (s', msgs) := handle_seller_wallet_input s text
          { sessions := mapSet sessions user_id s', wallets := wallets,
            msgs := msgs, spawned := none }
        | Step.waiting_amount =>
          let r := handle_amount_input user_id now s parsedAmount prov
            sessions wallets
          { sessions := r.sessions, wallets := r.wallets, msgs := r.msgs,
            spawned := r.spawned }
        | _ =>
          { sessions := sessions, wallets := wallets,
            msgs := [Msg.menuPrompt], spawned := none }

/-! ## One-user event system

A single user's interaction with the bot, used to state per-session
invariants about transaction-id issuance. -/

/-- One user-visible event together with the external outcomes the handlers
depend on. -/
inductive Event where
  | startCmd
  | startEscrow (now : ℕ)
  | textMsg (msgTime now : ℕ) (text : String) (parsedAmount : Option ℚ)
      (prov : ProvisionOutcome)

/-- Projection of one event on one user's session entry, together with any
transaction id issued by the event. -/
structure EventOut where
  sess : Option Session
  issued : Option String

/-- The per-user step function assembled from the handlers above (the wallet
store does not influence the session transition, so it is elided). -/
def user_event_step (user_id : ℕ) (sess : Option Session) (ev : Event) :
    EventOut :=
  let sessions : SessionStore := fun u => if u = user_id then sess else none
  match ev with
  | Event.startCmd =>
    { sess := (start_handler user_id sessions (fun _ => none)).sessions user_id
      issued := none }
  | Event.startEscrow now =>
    { sess := (escrow_entry user_id now sessions).sessions user_id
      issued := none }
  | Event.textMsg msgTime now text parsedAmount prov =>
    let r := handle_text_messages user_id msgTime now text parsedAmount prov
      sessions (fun _ => none)
    { sess := r.sessions user_id, issued := r.spawned }

/-! ## Release orchestration (`process_escrow_release`, lines 643-753) -/

/-- Result of `process_escrow_release`.  `deleteSession` records the cleanup
`del user_sessions[user_id]` (the caller owns the session store). -/
structure ReleaseResult where
  wallets : WalletStore
  deleteSession : Bool
  msgs : List Msg

/-- Orchestrator `process_escrow_release`.  Here `sellerOk` / `feeOk` are the boolean results
of the two `send_ton_payment` legs (seller first, then fee).  A session dict
missing one of the five fields read at lines 646-650 raises `KeyError`,
which the enclosing `except` turns into the critical-error notification with
no cleanup. -/
def process_escrow_release (user_id : ℕ) (transaction_id : String)
    (sess : Session) (wallets : WalletStore) (sellerOk feeOk : Bool) :
    ReleaseResult :=
  match sess.amount, sess.seller_wallet, sess.escrow_address,
      sess.fee_amount, sess.seller_amount with
  | some amount, some seller_address, some escrow_address,
      some fee_amt, some seller_amt =>
    match wallets transaction_id with
    | none =>
      { wallets := wallets, deleteSession := false
        msgs := [Msg.processingTransfers, Msg.criticalNoRecord escrow_address] }
    | some _ =>
      let outcome :=
        if sellerOk && feeOk then
          Msg.releaseSuccess amount seller_amt fee_amt seller_address
            escrow_address
        else if sellerOk && !feeOk then
          Msg.partialSuccess seller_amt fee_amt
        else
          Msg.paymentFailed amount escrow_address
      { wallets := mapDel wallets transaction_id
        deleteSession := true
        msgs := [Msg.processingTransfers, outcome] }
  | _, _, _, _, _ =>
    { wallets := wallets, deleteSession := false
      msgs := [Msg.criticalRelease (sess.escrow_address.getD "Unknown")
        user_id] }

/-! ## Payment monitoring (`monitor_payment`, lines 565-641) -/

/-- Line 567: `max_checks = (PAYMENT_TIMEOUT_MINUTES * 60) // PAYMENT_CHECK_INTERVAL`
(line 567, floor division). -/
def max_checks : ℕ := PAYMENT_TIMEOUT_MINUTES * 60 / PAYMENT_CHECK_INTERVAL

/-- The check indices at which a progress notification is sent (line 593). -/
def status_update_checks : List ℕ := [1, 5, 10, 20, 40]

/-- The invalidation test at lines 575-578: the session exists, its step is
`completed`, and its `transaction_id` equals the monitor's own. -/
def monitor_session_valid (transaction_id : String) :
    Option Session → Bool
  | none => false
  | some s =>
    decide (s.step = Step.completed) &&
      decide (s.transaction_id = some transaction_id)

/-- Everything observable about one run of `monitor_payment`:
which polls queried the balance oracle, whether/when the release hand-off
fired, the resulting wallet store, and the notifications sent. -/
structure MonitorOutcome where
  checkIdxs : List ℕ
  releasedAt : Option ℕ
  timeoutNotified : Bool
  silentStop : Bool
  fuelOut : Bool
  wallets : WalletStore
  deleteSession : Bool
  msgs : List Msg

/-- The re-check after the `while` loop (lines 621-639): the timeout
notification fires only if the session is still the monitor's own. -/
def monitor_timeout_phase (transaction_id : String)
    (env : ℕ → Option Session) (wallets : WalletStore) (i : ℕ) :
    MonitorOutcome :=
  if monitor_session_valid transaction_id (env i) then
    { checkIdxs := [], releasedAt := none, timeoutNotified := true,
      silentStop := false, fuelOut := false, wallets := wallets,
      deleteSession := false,
      msgs := [Msg.timeoutNotice
        ((env i).bind Session.escrow_address |>.getD "Unknown")] }
  else
    { checkIdxs := [], releasedAt := none, timeoutNotified := false,
      silentStop := false, fuelOut := false, wallets := wallets,
      deleteSession := false, msgs := [] }

/-- The `while check_count < max_checks` loop of `monitor_payment`.
`env i` is the content of `user_sessions.get(user_id)` at poll `i`; `bal i`
is the oracle's answer at poll `i` (`get_wallet_balance` returns `0.0`
rather than raising).  `i` counts loop iterations, `c` is `check_count`;
they differ only on the `except` path (a session dict missing a required
key), which retries without incrementing `check_count`.  `fuel` bounds the
number of iterations of the model; a run of the source on a well-formed
store performs at most `max_checks` iterations, so `fuel = max_checks + 1`
is exact there. -/
def monitor_loop (user_id : ℕ) (transaction_id : String)
    (env : ℕ → Option Session) (bal : ℕ → ℚ) (wallets : WalletStore)
    (sellerOk feeOk : Bool) : ℕ → ℕ → ℕ → MonitorOutcome
  | 0, _, _ =>
    { checkIdxs := [], releasedAt := none, timeoutNotified := false,
      silentStop := false, fuelOut := true, wallets := wallets,
      deleteSession := false, msgs := [] }
  | fuel + 1, i, c =>
    if max_checks ≤ c then monitor_timeout_phase transaction_id env wallets i
    else
      match env i with
      | none =>
        { checkIdxs := [], releasedAt := none, timeoutNotified := false,
          silentStop := true, fuelOut := false, wallets := wallets,
          deleteSession := false, msgs := [] }
      | some s =>
        if ¬ (s.step = Step.completed ∧ s.transaction_id = some transaction_id)
        then
          { checkIdxs := [], releasedAt := none, timeoutNotified := false,
            silentStop := true, fuelOut := false, wallets := wallets,
            deleteSession := false, msgs := [] }
        else
          match s.escrow_address, s.amount with
          | some _, some expected_amount =>
            let observed := bal i
            if expected_amount ≤ observed then
              let r := process_escrow_release user_id transaction_id s
                wallets sellerOk feeOk
              { checkIdxs := [i], releasedAt := some i,
                timeoutNotified := false, silentStop := false,
                fuelOut := false, wallets := r.wallets,
                deleteSession := r.deleteSession, msgs := r.msgs }
            else
              let rest := monitor_loop user_id transaction_id env bal wallets
                sellerOk feeOk fuel (i + 1) (c + 1)
              { rest with
                  checkIdxs := i :: rest.checkIdxs,
                  msgs :=
                    (if c ∈ status_update_checks then
                      [Msg.statusUpdate c expected_amount observed]
                    else []) ++ rest.msgs }
          | _, _ =>
            monitor_loop user_id transaction_id env bal wallets sellerOk feeOk
              fuel (i + 1) c

/-- Entry point `monitor_payment` itself: the loop entered with
`check_count = 0` and enough fuel for every source-reachable run. -/
def monitor_payment (user_id : ℕ) (transaction_id : String)
    (env : ℕ → Option Session) (bal : ℕ → ℚ) (wallets : WalletStore)
    (sellerOk feeOk : Bool) : MonitorOutcome :=
  monitor_loop user_id transaction_id env bal wallets sellerOk feeOk
    (max_checks + 1) 0 0

/-! ## C1: the fee split -/

/-- C1, counterexample: the claimed exact identity
`fee(A) + seller(A) = A` for every positive `A` fails on the code, because
line 490 rounds the seller share again: at `A = 10⁻⁷` both
`fee_amount` and `seller_amount` round to `0`, so the sum is `0 ≠ A`. -/
theorem C1_counterexample :
    ¬ (∀ A : ℚ, 0 < A → fee_amount A + seller_amount A = A) := by
  intro h
  have h7 : (0 : ℚ) < 1 / 10000000 := by norm_num
  have := h (1 / 10000000) h7
  norm_num [fee_amount, seller_amount, round6, roundHalfEven,
    FEE_PERCENTAGE] at this

/-- C1 (amended): `fee = round(A * feeRate, 6)` as claimed, but the seller
share is `round(A - fee, 6)` — rounded again, not the exact complement.  For
every amount that is a whole multiple of `10⁻⁶` the second rounding is the
identity, so `fee(A) + seller(A) = A` exactly, and the scenario
`A = 1.5, feeRate = 0.05 → fee = 0.075, seller = 1.425, sum = 1.5` holds. -/
theorem C1_fee_split (k : ℤ) (_hk : 0 < k) :
    fee_amount ((k : ℚ) / 1000000) = round6 ((k : ℚ) / 1000000 * FEE_PERCENTAGE) ∧
    seller_amount ((k : ℚ) / 1000000) =
      round6 ((k : ℚ) / 1000000 - fee_amount ((k : ℚ) / 1000000)) ∧
    fee_amount ((k : ℚ) / 1000000) + seller_amount ((k : ℚ) / 1000000)
      = (k : ℚ) / 1000000 ∧
    fee_amount (3 / 2) = 75 / 1000 ∧
    seller_amount (3 / 2) = 1425 / 1000 ∧
    fee_amount (3 / 2) + seller_amount (3 / 2) = 3 / 2 := by
  refine ⟨rfl, rfl, ?_,
    by norm_num [fee_amount, seller_amount, round6, roundHalfEven, FEE_PERCENTAGE],
    by norm_num [fee_amount, seller_amount, round6, roundHalfEven, FEE_PERCENTAGE],
    by norm_num [fee_amount, seller_amount, round6, roundHalfEven, FEE_PERCENTAGE]⟩
  have hfee : fee_amount ((k : ℚ) / 1000000)
      = ((roundHalfEven ((k : ℚ) / 1000000 * FEE_PERCENTAGE * 1000000) : ℤ) : ℚ)
        / 1000000 := by
    simp only [fee_amount, round6]
  set m : ℤ := roundHalfEven ((k : ℚ) / 1000000 * FEE_PERCENTAGE * 1000000)
  have hdiff : (k : ℚ) / 1000000 - (m : ℚ) / 1000000
      = ((k - m : ℤ) : ℚ) / 1000000 := by
    push_cast
    ring
  rw [seller_amount, hfee, hdiff, round6_of_den_dvd]
  push_cast
  ring

/-- Witness for `C1_fee_split` at `k = 1500000` (that is, `A = 1.5`). -/
theorem C1_fee_split_witness :
    (0 : ℤ) < 1500000 ∧
      fee_amount ((1500000 : ℤ) / 1000000) + seller_amount ((1500000 : ℤ) / 1000000)
        = ((1500000 : ℤ) : ℚ) / 1000000 :=
  ⟨by norm_num, (C1_fee_split 1500000 (by norm_num)).2.2.1⟩

/-! ## C9: the address validator -/

/-- The string `"EQ"` followed by 46 valid characters: 48 characters in total. -/
def c9_good : String := "EQAAAAAAAAAAAAAAAAAAAAAAAAAAAAAAAAAAAAAAAAAAAAAA"

/-- The string `c9_good` truncated to 47 characters. -/
def c9_short : String := "EQAAAAAAAAAAAAAAAAAAAAAAAAAAAAAAAAAAAAAAAAAAAAA"

/-- The string `c9_good` with a leading space: 49 characters in total. -/
def c9_padded : String := " EQAAAAAAAAAAAAAAAAAAAAAAAAAAAAAAAAAAAAAAAAAAAAAA"

/-- C9, counterexample: the claimed "accepts if and only if prefix, length
bound, alphabet-only remainder" fails on the given string itself, because
line 63 strips surrounding whitespace first: a valid 48-character address
with a leading space is accepted although it starts with no recognized
prefix. -/
theorem C9_counterexample :
    is_valid_ton_address c9_padded = true ∧ ¬ spec_accepts_address c9_padded := by
  decide

/-- The wordwise acceptance condition describes `valid_core` exactly. -/
theorem valid_core_iff (l : List Char) :
    valid_core l = true ↔ spec_accepts_core l := by
  unfold valid_core spec_accepts_core matches_b64url
  split
  · rename_i hlen
    constructor
    · intro hF
      exact absurd hF (by simp)
    · rintro ⟨h1, h2, -, -⟩
      omega
  · rename_i hlen
    push_neg at hlen
    split
    · rename_i hpre
      constructor
      · intro hF
        exact absurd hF (by simp)
      · rintro ⟨-, -, hp, -⟩
        exact absurd hp hpre
    · rename_i hpre
      rw [not_not] at hpre
      rw [Bool.and_eq_true, Bool.not_eq_true', List.isEmpty_eq_false,
        List.all_eq_true]
      constructor
      · rintro ⟨-, hall⟩
        exact ⟨by omega, by omega, hpre, hall⟩
      · rintro ⟨h48, -, -, hall⟩
        refine ⟨?_, hall⟩
        intro hnil
        have := List.length_drop 2 l
        rw [hnil] at this
        simp at this
        omega

/-- C9 (amended): the validator is a pure predicate that accepts a string
iff its whitespace-stripped form has one of the recognized prefixes, length
48-50, and an alphabet-only remainder; `"EQ"` plus 46 valid characters (48
total) is accepted and its 47-character truncation is rejected. -/
theorem C9_validator :
    (∀ a : String,
      is_valid_ton_address a = true ↔ spec_accepts_address (pyStrip a)) ∧
    is_valid_ton_address c9_good = true ∧
    is_valid_ton_address c9_short = false := by
  refine ⟨?_, by decide, by decide⟩
  intro a
  exact valid_core_iff (pyStripList a.toList)

/-! ## C6: starting an escrow with an existing session -/

/-- A store holding one mid-flow (non-funded) session for user 7. -/
def c6_mid_store : SessionStore :=
  fun u => if u = 7 then some { step := Step.waiting_amount, started_at := 0 }
           else none

/-- C6, counterexample: a second "start escrow" while user 7's session is in
the active, non-terminal step `waiting_amount` is NOT rejected — lines
328-335 reject only when the step is `completed` — and the existing session
is replaced by a fresh one. -/
theorem C6_counterexample :
    (escrow_entry 7 5 c6_mid_store).rejected = false ∧
    (escrow_entry 7 5 c6_mid_store).sessions 7
      = some { step := Step.waiting_seller_wallet, started_at := 5 } ∧
    (escrow_entry 7 5 c6_mid_store).sessions 7 ≠ c6_mid_store 7 := by
  refine ⟨rfl, rfl, ?_⟩
  decide

/-- C6 (amended): a "start escrow" request is rejected (leaving every
session unaltered) exactly when the user's existing session is in the
funded-waiting step `completed`; an existing pre-funding session is not
rejected but silently replaced by a fresh `waiting_seller_wallet` session;
other users' sessions are never touched. -/
theorem C6_entry (sessions : SessionStore) (user_id now : ℕ) :
    ((escrow_entry user_id now sessions).rejected = true ↔
      ∃ s, sessions user_id = some s ∧ s.step = Step.completed) ∧
    ((escrow_entry user_id now sessions).rejected = true →
      (escrow_entry user_id now sessions).sessions = sessions ∧
      (escrow_entry user_id now sessions).msgs = [Msg.escrowActive]) ∧
    ((escrow_entry user_id now sessions).rejected = false →
      (escrow_entry user_id now sessions).sessions user_id
        = some { step := Step.waiting_seller_wallet, started_at := now }) ∧
    (∀ u, u ≠ user_id →
      (escrow_entry user_id now sessions).sessions u = sessions u) := by
  cases hs : sessions user_id with
  | none =>
    refine ⟨?_, ?_, ?_, ?_⟩
    · simp [escrow_entry, hs]
    · intro h
      simp [escrow_entry, hs] at h
    · intro _
      simp [escrow_entry, hs, mapSet]
    · intro u hu
      simp [escrow_entry, hs, mapSet, hu]
  | some s =>
    by_cases hstep : s.step = Step.completed
    · refine ⟨?_, ?_, ?_, ?_⟩
      · simp [escrow_entry, hs, hstep]
      · intro _
        refine ⟨?_, ?_⟩ <;> simp [escrow_entry, hs, hstep]
      · intro h
        simp [escrow_entry, hs, hstep] at h
      · intro u _
        simp [escrow_entry, hs, hstep]
    · refine ⟨?_, ?_, ?_, ?_⟩
      · simp [escrow_entry, hs, hstep]
      · intro h
        simp [escrow_entry, hs, hstep] at h
      · intro _
        simp [escrow_entry, hs, hstep, mapSet]
      · intro u hu
        simp [escrow_entry, hs, hstep, mapSet, hu]

/-- A store holding a funded-waiting (`completed`) session for user 1. -/
def c6_completed_store : SessionStore :=
  fun u => if u = 1 then some { step := Step.completed, started_at := 0 }
           else none

/-- Witness for `C6_entry`: with a `completed` session in place, the request
is rejected and the stores and messages are exactly as stated. -/
theorem C6_entry_witness :
    (escrow_entry 1 9 c6_completed_store).sessions = c6_completed_store ∧
    (escrow_entry 1 9 c6_completed_store).msgs = [Msg.escrowActive] :=
  (C6_entry c6_completed_store 1 9).2.1 rfl

/-! ## C8: provisioning failure -/

/-- C8 (amended): on wallet-provisioning failure after a valid positive
amount, the session's step reverts to `waiting_amount` and the user is
informed and may retry (the step routes the next text back to the amount
handler) — but the amount/fee/seller fields are NOT cleared: they keep the
values just computed (line 551 resets only `step`).  No wallet record is
created and no monitor is spawned. -/
theorem C8_provision_failure (user_id now : ℕ) (sess : Session) (A : ℚ)
    (hA : 0 < A) (sessions : SessionStore) (wallets : WalletStore) :
    (handle_amount_input user_id now sess (some A) ProvisionOutcome.fail
        sessions wallets).sessions user_id
      = some { sess with amount := some A, fee_amount := some (fee_amount A),
                         seller_amount := some (seller_amount A),
                         step := Step.waiting_amount } ∧
    (handle_amount_input user_id now sess (some A) ProvisionOutcome.fail
        sessions wallets).wallets = wallets ∧
    (handle_amount_input user_id now sess (some A) ProvisionOutcome.fail
        sessions wallets).msgs = [Msg.generatingWallet, Msg.walletGenFailed] ∧
    (handle_amount_input user_id now sess (some A) ProvisionOutcome.fail
        sessions wallets).spawned = none ∧
    (∀ u, u ≠ user_id →
      (handle_amount_input user_id now sess (some A) ProvisionOutcome.fail
        sessions wallets).sessions u = sessions u) := by
  have hA' : ¬ A ≤ 0 := not_le.2 hA
  refine ⟨?_, ?_, ?_, ?_, ?_⟩
  · simp [handle_amount_input, hA', mapSet]
  · simp [handle_amount_input, hA']
  · simp [handle_amount_input, hA']
  · simp [handle_amount_input, hA']
  · intro u hu
    simp [handle_amount_input, hA', mapSet, hu]

/-- Witness for `C8_provision_failure` at a concrete failing provisioning. -/
theorem C8_provision_failure_witness :
    (handle_amount_input 1 100
        { step := Step.waiting_amount, started_at := 0,
          seller_wallet := some "SELLER" }
        (some 2) ProvisionOutcome.fail (fun _ => none) (fun _ => none)).msgs
      = [Msg.generatingWallet, Msg.walletGenFailed] :=
  (C8_provision_failure 1 100
    { step := Step.waiting_amount, started_at := 0,
      seller_wallet := some "SELLER" }
    2 (by norm_num) (fun _ => none) (fun _ => none)).2.2.1

/-- The session for the C8 counterexample. -/
def c8_sess : Session :=
  { step := Step.waiting_amount, started_at := 0,
    seller_wallet := some "SELLERADDR" }

/-- C8, counterexample: after a failed provisioning the amount field of the
session is NOT cleared — it still holds the amount just entered. -/
theorem C8_counterexample :
    Option.bind ((handle_amount_input 1 100 c8_sess (some (3 / 2))
        ProvisionOutcome.fail (fun u => if u = 1 then some c8_sess else none)
        (fun _ => none)).sessions 1) Session.amount = some (3 / 2) ∧
    Option.bind ((handle_amount_input 1 100 c8_sess (some (3 / 2))
        ProvisionOutcome.fail (fun u => if u = 1 then some c8_sess else none)
        (fun _ => none)).sessions 1) Session.amount ≠ none := by
  have h : ¬ (3 / 2 : ℚ) ≤ 0 := by norm_num
  constructor
  · simp [handle_amount_input, h, mapSet]
  · simp [handle_amount_input, h, mapSet]

/-! ## C2 and C3: release outcomes -/

/-- A funded-waiting session used by the C2 counterexample. -/
def c2_sess : Session :=
  { step := Step.completed, started_at := 0,
    seller_wallet := some "SELLERADDR2", amount := some 2,
    fee_amount := some 1, seller_amount := some 1,
    escrow_address := some "ESCROWADDR2", escrow_private_key := some "K2",
    transaction_id := some "1_200" }

/-- The wallet record matching `c2_sess`. -/
def c2_rec : WalletRecord :=
  { address := "ESCROWADDR2", private_key := "K2", user_id := 1,
    seller_wallet := "SELLERADDR2", amount := 2, fee_amount := 1,
    seller_amount := 1, status := "waiting_payment", created_timestamp := 200,
    transaction_id := "1_200" }

/-- C2, counterexample: when the seller leg succeeds and the fee leg fails,
the wallet record is NOT retained (and hence not marked `released`): the
cleanup at lines 729-732 deletes it. -/
theorem C2_counterexample :
    (process_escrow_release 1 "1_200" c2_sess
        (fun t => if t = "1_200" then some c2_rec else none) true false).wallets
        "1_200" = none ∧
    (process_escrow_release 1 "1_200" c2_sess
        (fun t => if t = "1_200" then some c2_rec else none) true false).msgs
      = [Msg.processingTransfers, Msg.partialSuccess 1 1] := by
  constructor <;> rfl

/-- C2 (amended): when the seller leg succeeds and the fee leg fails, the
user receives the partial-success notification naming the seller amount and
the fee amount, and the session is deleted — but the wallet record is also
deleted (its `status` never changes from `waiting_payment`; the code has no
`released` marking). -/
theorem C2_partial_success (user_id : ℕ) (tid : String) (sess : Session)
    (wallets : WalletStore) (amount fee seller : ℚ)
    (sellerAddr escrowAddr : String) (rec : WalletRecord)
    (h1 : sess.amount = some amount) (h2 : sess.seller_wallet = some sellerAddr)
    (h3 : sess.escrow_address = some escrowAddr)
    (h4 : sess.fee_amount = some fee) (h5 : sess.seller_amount = some seller)
    (h6 : wallets tid = some rec) :
    (process_escrow_release user_id tid sess wallets true false).msgs
      = [Msg.processingTransfers, Msg.partialSuccess seller fee] ∧
    (process_escrow_release user_id tid sess wallets true false).deleteSession
      = true ∧
    (process_escrow_release user_id tid sess wallets true false).wallets
      = mapDel wallets tid ∧
    (process_escrow_release user_id tid sess wallets true false).wallets tid
      = none := by
  refine ⟨?_, ?_, ?_, ?_⟩ <;>
    simp [process_escrow_release, h1, h2, h3, h4, h5, h6, mapDel]

/-- Witness for `C2_partial_success` on concrete stores. -/
theorem C2_partial_success_witness :
    (process_escrow_release 1 "1_200" c2_sess
        (fun t => if t = "1_200" then some c2_rec else none) true false).msgs
      = [Msg.processingTransfers, Msg.partialSuccess 1 1] :=
  (C2_partial_success 1 "1_200" c2_sess
    (fun t => if t = "1_200" then some c2_rec else none) 2 1 1
    "SELLERADDR2" "ESCROWADDR2" c2_rec rfl rfl rfl rfl rfl rfl).1

/-- A funded-waiting session used by the C3 counterexample. -/
def c3_sess : Session :=
  { step := Step.completed, started_at := 0,
    seller_wallet := some "SELLERADDR3", amount := some 4,
    fee_amount := some 1, seller_amount := some 3,
    escrow_address := some "ESCROWADDR3", escrow_private_key := some "K3",
    transaction_id := some "2_300" }

/-- The wallet record matching `c3_sess`. -/
def c3_rec : WalletRecord :=
  { address := "ESCROWADDR3", private_key := "K3", user_id := 2,
    seller_wallet := "SELLERADDR3", amount := 4, fee_amount := 1,
    seller_amount := 3, status := "waiting_payment", created_timestamp := 300,
    transaction_id := "2_300" }

/-- C3, counterexample: when the seller leg fails, neither the session nor
the wallet record is retained — the cleanup at lines 729-732 deletes both —
and no `failed` marking ever happens. -/
theorem C3_counterexample :
    (process_escrow_release 2 "2_300" c3_sess
        (fun t => if t = "2_300" then some c3_rec else none) false true).wallets
        "2_300" = none ∧
    (process_escrow_release 2 "2_300" c3_sess
        (fun t => if t = "2_300" then some c3_rec else none) false
        true).deleteSession = true := by
  constructor <;> rfl

/-- C3 (amended): when the seller leg fails (whatever the fee leg's
outcome), the user is notified that the funds remain at the escrow address
and that a manual release must be processed — but both the session entry
and the wallet record are then deleted, and the record's `status` is never
set to `failed`. -/
theorem C3_seller_failure (user_id : ℕ) (tid : String) (sess : Session)
    (wallets : WalletStore) (feeOk : Bool) (amount fee seller : ℚ)
    (sellerAddr escrowAddr : String) (rec : WalletRecord)
    (h1 : sess.amount = some amount) (h2 : sess.seller_wallet = some sellerAddr)
    (h3 : sess.escrow_address = some escrowAddr)
    (h4 : sess.fee_amount = some fee) (h5 : sess.seller_amount = some seller)
    (h6 : wallets tid = some rec) :
    (process_escrow_release user_id tid sess wallets false feeOk).msgs
      = [Msg.processingTransfers, Msg.paymentFailed amount escrowAddr] ∧
    (process_escrow_release user_id tid sess wallets false feeOk).deleteSession
      = true ∧
    (process_escrow_release user_id tid sess wallets false feeOk).wallets
      = mapDel wallets tid ∧
    (process_escrow_release user_id tid sess wallets false feeOk).wallets tid
      = none := by
  refine ⟨?_, ?_, ?_, ?_⟩ <;>
    simp [process_escrow_release, h1, h2, h3, h4, h5, h6, mapDel]

/-- Witness for `C3_seller_failure` on concrete stores. -/
theorem C3_seller_failure_witness :
    (process_escrow_release 2 "2_300" c3_sess
        (fun t => if t = "2_300" then some c3_rec else none) false true).msgs
      = [Msg.processingTransfers, Msg.paymentFailed 4 "ESCROWADDR3"] :=
  (C3_seller_failure 2 "2_300" c3_sess
    (fun t => if t = "2_300" then some c3_rec else none) true 4 1 3
    "SELLERADDR3" "ESCROWADDR3" c3_rec rfl rfl rfl rfl rfl rfl).1

/-! ## Unfolding equations for `monitor_loop` -/

theorem monitor_session_valid_some_iff (tid : String) (s : Session) :
    monitor_session_valid tid (some s) = true ↔
      s.step = Step.completed ∧ s.transaction_id = some tid := by
  simp [monitor_session_valid]

theorem monitor_timeout_phase_checkIdxs (tid : String) (env : ℕ → Option Session)
    (w : WalletStore) (i : ℕ) :
    (monitor_timeout_phase tid env w i).checkIdxs = [] := by
  unfold monitor_timeout_phase
  split <;> rfl

theorem monitor_loop_timeout (u : ℕ) (tid : String) (env : ℕ → Option Session)
    (bal : ℕ → ℚ) (w : WalletStore) (so fo : Bool) (fuel i c : ℕ)
    (h : max_checks ≤ c) :
    monitor_loop u tid env bal w so fo (fuel + 1) i c
      = monitor_timeout_phase tid env w i := by
  simp [monitor_loop, h]

theorem monitor_loop_invalid_none (u : ℕ) (tid : String)
    (env : ℕ → Option Session) (bal : ℕ → ℚ) (w : WalletStore) (so fo : Bool)
    (fuel i c : ℕ) (h : c < max_checks) (he : env i = none) :
    monitor_loop u tid env bal w so fo (fuel + 1) i c
      = { checkIdxs := [], releasedAt := none, timeoutNotified := false,
          silentStop := true, fuelOut := false, wallets := w,
          deleteSession := false, msgs := [] } := by
  have h' : ¬ max_checks ≤ c := not_le.2 h
  simp [monitor_loop, h', he]

theorem monitor_loop_invalid_some (u : ℕ) (tid : String)
    (env : ℕ → Option Session) (bal : ℕ → ℚ) (w : WalletStore) (so fo : Bool)
    (fuel i c : ℕ) (s : Session) (h : c < max_checks) (he : env i = some s)
    (hv : ¬ (s.step = Step.completed ∧ s.transaction_id = some tid)) :
    monitor_loop u tid env bal w so fo (fuel + 1) i c
      = { checkIdxs := [], releasedAt := none, timeoutNotified := false,
          silentStop := true, fuelOut := false, wallets := w,
          deleteSession := false, msgs := [] } := by
  have h' : ¬ max_checks ≤ c := not_le.2 h
  simp [monitor_loop, h', he, hv]

theorem monitor_loop_poll (u : ℕ) (tid : String) (env : ℕ → Option Session)
    (bal : ℕ → ℚ) (w : WalletStore) (so fo : Bool) (fuel i c : ℕ) (s : Session)
    (addr : String) (amt : ℚ) (h : c < max_checks) (he : env i = some s)
    (hstep : s.step = Step.completed) (htid : s.transaction_id = some tid)
    (ha : s.escrow_address = some addr) (hm : s.amount = some amt)
    (hb : ¬ amt ≤ bal i) :
    monitor_loop u tid env bal w so fo (fuel + 1) i c
      = { monitor_loop u tid env bal w so fo fuel (i + 1) (c + 1) with
          checkIdxs :=
            i :: (monitor_loop u tid env bal w so fo fuel (i + 1) (c + 1)).checkIdxs,
          msgs :=
            (if c ∈ status_update_checks then [Msg.statusUpdate c amt (bal i)]
             else []) ++
              (monitor_loop u tid env bal w so fo fuel (i + 1) (c + 1)).msgs } := by
  have h' : ¬ max_checks ≤ c := not_le.2 h
  simp [monitor_loop, h', he, hstep, htid, ha, hm, hb]

theorem monitor_loop_release (u : ℕ) (tid : String)
    (env : ℕ → Option Session) (bal : ℕ → ℚ) (w : WalletStore) (so fo : Bool)
    (fuel i c : ℕ) (s : Session) (addr : String) (amt : ℚ)
    (h : c < max_checks) (he : env i = some s)
    (hstep : s.step = Step.completed) (htid : s.transaction_id = some tid)
    (ha : s.escrow_address = some addr) (hm : s.amount = some amt)
    (hb : amt ≤ bal i) :
    monitor_loop u tid env bal w so fo (fuel + 1) i c
      = { checkIdxs := [i], releasedAt := some i, timeoutNotified := false,
          silentStop := false, fuelOut := false,
          wallets := (process_escrow_release u tid s w so fo).wallets,
          deleteSession := (process_escrow_release u tid s w so fo).deleteSession,
          msgs := (process_escrow_release u tid s w so fo).msgs } := by
  have h' : ¬ max_checks ≤ c := not_le.2 h
  simp [monitor_loop, h', he, hstep, htid, ha, hm, hb]

theorem monitor_loop_exception (u : ℕ) (tid : String)
    (env : ℕ → Option Session) (bal : ℕ → ℚ) (w : WalletStore) (so fo : Bool)
    (fuel i c : ℕ) (s : Session) (h : c < max_checks) (he : env i = some s)
    (hstep : s.step = Step.completed) (htid : s.transaction_id = some tid)
    (hmiss : s.escrow_address = none ∨ s.amount = none) :
    monitor_loop u tid env bal w so fo (fuel + 1) i c
      = monitor_loop u tid env bal w so fo fuel (i + 1) c := by
  have h' : ¬ max_checks ≤ c := not_le.2 h
  rcases hmiss with ha | hm
  · simp [monitor_loop, h', he, hstep, htid, ha]
  · cases ha : s.escrow_address <;>
      simp [monitor_loop, h', he, hstep, htid, ha, hm]

/-! ## The check budget (C4) -/

theorem monitor_loop_checks_le (u : ℕ) (tid : String)
    (env : ℕ → Option Session) (bal : ℕ → ℚ) (w : WalletStore) (so fo : Bool) :
    ∀ fuel i c,
      (monitor_loop u tid env bal w so fo fuel i c).checkIdxs.length
        ≤ max_checks - c := by
  intro fuel
  induction fuel with
  | zero =>
    intro i c
    simp [monitor_loop]
  | succ fuel ih =>
    intro i c
    by_cases hc : max_checks ≤ c
    · rw [monitor_loop_timeout u tid env bal w so fo fuel i c hc,
        monitor_timeout_phase_checkIdxs]
      simp
    · push_neg at hc
      cases he : env i with
      | none =>
        rw [monitor_loop_invalid_none u tid env bal w so fo fuel i c hc he]
        simp
      | some s =>
        by_cases hv : s.step = Step.completed ∧ s.transaction_id = some tid
        · cases ha : s.escrow_address with
          | none =>
            rw [monitor_loop_exception u tid env bal w so fo fuel i c s hc he
              hv.1 hv.2 (Or.inl ha)]
            exact ih (i + 1) c
          | some addr =>
            cases hm : s.amount with
            | none =>
              rw [monitor_loop_exception u tid env bal w so fo fuel i c s hc he
                hv.1 hv.2 (Or.inr hm)]
              exact ih (i + 1) c
            | some amt =>
              by_cases hb : amt ≤ bal i
              · rw [monitor_loop_release u tid env bal w so fo fuel i c s addr
                  amt hc he hv.1 hv.2 ha hm hb]
                simp
                omega
              · rw [monitor_loop_poll u tid env bal w so fo fuel i c s addr amt
                  hc he hv.1 hv.2 ha hm hb]
                have := ih (i + 1) (c + 1)
                simp only [List.length_cons]
                omega
        · rw [monitor_loop_invalid_some u tid env bal w so fo fuel i c s hc he
            hv]
          simp

/-- A run in which the session stays the monitor's own and funding never
arrives: every iteration polls once, the budget is consumed exactly, the
timeout notification fires, no release happens and the wallet store is left
untouched. -/
theorem monitor_loop_full_run (u : ℕ) (tid : String)
    (env : ℕ → Option Session) (bal : ℕ → ℚ) (w : WalletStore) (so fo : Bool)
    (s₀ : Session) (addr : String) (amt : ℚ)
    (henv : ∀ j, env j = some s₀) (hstep : s₀.step = Step.completed)
    (htid : s₀.transaction_id = some tid)
    (haddr : s₀.escrow_address = some addr) (hamt : s₀.amount = some amt)
    (hbal : ∀ j, bal j < amt) :
    ∀ fuel i c, c + fuel = max_checks + 1 → c ≤ max_checks →
      (monitor_loop u tid env bal w so fo fuel i c).checkIdxs.length
          = max_checks - c ∧
      (monitor_loop u tid env bal w so fo fuel i c).timeoutNotified = true ∧
      (monitor_loop u tid env bal w so fo fuel i c).releasedAt = none ∧
      (monitor_loop u tid env bal w so fo fuel i c).wallets = w ∧
      (monitor_loop u tid env bal w so fo fuel i c).silentStop = false ∧
      (monitor_loop u tid env bal w so fo fuel i c).fuelOut = false ∧
      (monitor_loop u tid env bal w so fo fuel i c).deleteSession = false := by
  intro fuel
  induction fuel with
  | zero =>
    intro i c hfc hc
    omega
  | succ fuel ih =>
    intro i c hfc hc
    by_cases hle : max_checks ≤ c
    · have hceq : c = max_checks := le_antisymm hc hle
      rw [monitor_loop_timeout u tid env bal w so fo fuel i c hle]
      have hvalid : monitor_session_valid tid (env i) = true := by
        rw [henv i]
        exact (monitor_session_valid_some_iff tid s₀).2 ⟨hstep, htid⟩
      unfold monitor_timeout_phase
      rw [hvalid]
      simp [hceq]
    · push_neg at hle
      have hb : ¬ amt ≤ bal i := not_le.2 (hbal i)
      rw [monitor_loop_poll u tid env bal w so fo fuel i c s₀ addr amt hle
        (henv i) hstep htid haddr hamt hb]
      have := ih (i + 1) (c + 1) (by omega) (by omega)
      simp only [List.length_cons]
      refine ⟨by omega, this.2.1, this.2.2.1, this.2.2.2.1, this.2.2.2.2.1,
        this.2.2.2.2.2.1, this.2.2.2.2.2.2⟩

/-- A run in which the session is the monitor's own, unfunded, up to poll
`i0`, and invalid from poll `i0` on: the monitor stops at poll `i0` without
querying the oracle there, releases nothing, sends no notification besides
the progress updates of earlier polls, and leaves the wallet store
untouched. -/
theorem monitor_loop_invalidated (u : ℕ) (tid : String)
    (env : ℕ → Option Session) (bal : ℕ → ℚ) (w : WalletStore) (so fo : Bool)
    (i0 : ℕ)
    (hpre : ∀ j, j < i0 → ∃ s addr amt, env j = some s ∧
      s.step = Step.completed ∧ s.transaction_id = some tid ∧
      s.escrow_address = some addr ∧ s.amount = some amt ∧ bal j < amt)
    (hpost : ∀ j, i0 ≤ j → monitor_session_valid tid (env j) = false)
    (hi0 : i0 ≤ max_checks) :
    ∀ fuel c, c ≤ i0 →
      (monitor_loop u tid env bal w so fo fuel c c).releasedAt = none ∧
      (monitor_loop u tid env bal w so fo fuel c c).timeoutNotified = false ∧
      (monitor_loop u tid env bal w so fo fuel c c).wallets = w ∧
      (monitor_loop u tid env bal w so fo fuel c c).deleteSession = false ∧
      (∀ j ∈ (monitor_loop u tid env bal w so fo fuel c c).checkIdxs, j < i0) ∧
      (∀ m ∈ (monitor_loop u tid env bal w so fo fuel c c).msgs,
        ∃ c' e o, c' < i0 ∧ m = Msg.statusUpdate c' e o) := by
  intro fuel
  induction fuel with
  | zero =>
    intro c _
    simp [monitor_loop]
  | succ fuel ih =>
    intro c hc
    by_cases hle : max_checks ≤ c
    · have hceq : c = i0 := by omega
      rw [monitor_loop_timeout u tid env bal w so fo fuel c c hle]
      unfold monitor_timeout_phase
      rw [hpost c (by omega)]
      simp
    · push_neg at hle
      by_cases hci : c < i0
      · obtain ⟨s, addr, amt, he, hstep, htid, ha, hm, hb⟩ := hpre c hci
        rw [monitor_loop_poll u tid env bal w so fo fuel c c s addr amt hle he
          hstep htid ha hm (not_le.2 hb)]
        have hrest := ih (c + 1) (by omega)
        refine ⟨hrest.1, hrest.2.1, hrest.2.2.1, hrest.2.2.2.1, ?_, ?_⟩
        · intro j hj
          rcases List.mem_cons.1 hj with rfl | hj
          · exact hci
          · exact hrest.2.2.2.2.1 j hj
        · intro m hm'
          rcases List.mem_append.1 hm' with hm' | hm'
          · refine ⟨c, amt, bal c, hci, ?_⟩
            by_cases hcs : c ∈ status_update_checks
            · rw [if_pos hcs] at hm'
              simpa using hm'
            · rw [if_neg hcs] at hm'
              cases hm'
          · exact hrest.2.2.2.2.2 m hm'
      · have hceq : c = i0 := by omega
        have hval := hpost c (by omega)
        cases he : env c with
        | none =>
          rw [monitor_loop_invalid_none u tid env bal w so fo fuel c c hle he]
          simp
        | some s =>
          have hv : ¬ (s.step = Step.completed ∧ s.transaction_id = some tid) := by
            intro hcon
            rw [he] at hval
            rw [(monitor_session_valid_some_iff tid s).2 hcon] at hval
            cases hval
          rw [monitor_loop_invalid_some u tid env bal w so fo fuel c c s hle he
            hv]
          simp

/-! ## C4: the check budget and the timeout path -/

/-- C4: `max_checks` equals `ceil(timeoutMinutes*60 / pollIntervalSeconds)`
(the floor division of line 567 coincides with the ceiling because
`30 ∣ 3600`), the budget is exactly 120 checks, every monitor run performs
at most that many balance checks, and a run that stays valid and unfunded
performs exactly 120 checks, fires the timeout notification, releases
nothing, and leaves the wallet record untouched in its
`waiting_payment` state. -/
theorem C4_check_budget :
    max_checks
        = (PAYMENT_TIMEOUT_MINUTES * 60 + PAYMENT_CHECK_INTERVAL - 1)
            / PAYMENT_CHECK_INTERVAL ∧
    max_checks = 120 ∧
    (∀ (u : ℕ) (tid : String) (env : ℕ → Option Session) (bal : ℕ → ℚ)
        (w : WalletStore) (so fo : Bool) (fuel i c : ℕ),
      (monitor_loop u tid env bal w so fo fuel i c).checkIdxs.length
        ≤ max_checks) ∧
    (∀ (u : ℕ) (tid : String) (env : ℕ → Option Session) (bal : ℕ → ℚ)
        (w : WalletStore) (so fo : Bool) (s₀ : Session) (addr : String)
        (amt : ℚ) (rec : WalletRecord),
      (∀ j, env j = some s₀) → s₀.step = Step.completed →
      s₀.transaction_id = some tid → s₀.escrow_address = some addr →
      s₀.amount = some amt → (∀ j, bal j < amt) → w tid = some rec →
      (monitor_payment u tid env bal w so fo).checkIdxs.length = 120 ∧
      (monitor_payment u tid env bal w so fo).timeoutNotified = true ∧
      (monitor_payment u tid env bal w so fo).releasedAt = none ∧
      (monitor_payment u tid env bal w so fo).wallets = w ∧
      (monitor_payment u tid env bal w so fo).wallets tid = some rec ∧
      (monitor_payment u tid env bal w so fo).deleteSession = false) := by
  refine ⟨rfl, rfl, ?_, ?_⟩
  · intro u tid env bal w so fo fuel i c
    have := monitor_loop_checks_le u tid env bal w so fo fuel i c
    omega
  · intro u tid env bal w so fo s₀ addr amt rec henv hstep htid haddr hamt
      hbal hrec
    simp only [monitor_payment]
    have := monitor_loop_full_run u tid env bal w so fo s₀ addr amt henv hstep
      htid haddr hamt hbal (max_checks + 1) 0 0 (by omega) (by omega)
    refine ⟨?_, this.2.1, this.2.2.1, this.2.2.2.1, ?_, this.2.2.2.2.2.2⟩
    · have h120 : max_checks = 120 := rfl
      have hlen := this.1
      omega
    · rw [this.2.2.2.1]
      exact hrec

/-- The funded-waiting session of the C4 witness. -/
def c4_sess : Session :=
  { step := Step.completed, started_at := 0,
    seller_wallet := some "SELLERADDR4", amount := some 2,
    fee_amount := some (1 / 10), seller_amount := some (19 / 10),
    escrow_address := some "ESCROWADDR4", escrow_private_key := some "K4",
    transaction_id := some "3_400" }

/-- The wallet record of the C4 witness. -/
def c4_rec : WalletRecord :=
  { address := "ESCROWADDR4", private_key := "K4", user_id := 3,
    seller_wallet := "SELLERADDR4", amount := 2, fee_amount := 1 / 10,
    seller_amount := 19 / 10, status := "waiting_payment",
    created_timestamp := 400, transaction_id := "3_400" }

/-- Witness for `C4_check_budget`: a concrete never-funded valid run. -/
theorem C4_check_budget_witness :
    (monitor_payment 3 "3_400" (fun _ => some c4_sess) (fun _ => 0)
        (fun t => if t = "3_400" then some c4_rec else none) true
        true).checkIdxs.length = 120 ∧
    (monitor_payment 3 "3_400" (fun _ => some c4_sess) (fun _ => 0)
        (fun t => if t = "3_400" then some c4_rec else none) true
        true).timeoutNotified = true ∧
    (monitor_payment 3 "3_400" (fun _ => some c4_sess) (fun _ => 0)
        (fun t => if t = "3_400" then some c4_rec else none) true
        true).wallets "3_400" = some c4_rec := by
  have h := C4_check_budget.2.2.2 3 "3_400" (fun _ => some c4_sess)
    (fun _ => 0) (fun t => if t = "3_400" then some c4_rec else none) true true
    c4_sess "ESCROWADDR4" 2 c4_rec (fun _ => rfl) rfl rfl rfl rfl
    (fun _ => by norm_num) rfl
  exact ⟨h.1, h.2.1, h.2.2.2.2.1⟩

/-! ## C5: invalidation stops the monitor silently -/

/-- C5: a monitor whose session is its own and unfunded up to poll `i0` and
invalid (gone, re-stepped, or superseded) from poll `i0 ≤ max_checks` on
stops at poll `i0`: it performs no balance query at or after `i0`, never
hands off to the release orchestrator, sends no notification other than the
progress updates of polls before `i0`, and leaves the wallet store
untouched. -/
theorem C5_invalidation (u : ℕ) (tid : String) (env : ℕ → Option Session)
    (bal : ℕ → ℚ) (w : WalletStore) (so fo : Bool) (i0 : ℕ)
    (hpre : ∀ j, j < i0 → ∃ s addr amt, env j = some s ∧
      s.step = Step.completed ∧ s.transaction_id = some tid ∧
      s.escrow_address = some addr ∧ s.amount = some amt ∧ bal j < amt)
    (hpost : ∀ j, i0 ≤ j → monitor_session_valid tid (env j) = false)
    (hi0 : i0 ≤ max_checks) :
    (monitor_payment u tid env bal w so fo).releasedAt = none ∧
    (monitor_payment u tid env bal w so fo).timeoutNotified = false ∧
    (monitor_payment u tid env bal w so fo).wallets = w ∧
    (monitor_payment u tid env bal w so fo).deleteSession = false ∧
    (∀ j ∈ (monitor_payment u tid env bal w so fo).checkIdxs, j < i0) ∧
    (∀ m ∈ (monitor_payment u tid env bal w so fo).msgs,
      ∃ c e o, c < i0 ∧ m = Msg.statusUpdate c e o) :=
  monitor_loop_invalidated u tid env bal w so fo i0 hpre hpost hi0
    (max_checks + 1) 0 (Nat.zero_le i0)

/-- Witness for `C5_invalidation`: a monitor that finds its session gone
from the very first poll. -/
theorem C5_invalidation_witness :
    (monitor_payment 1 "1_999" (fun _ => none) (fun _ => 0) (fun _ => none)
        true true).releasedAt = none ∧
    (monitor_payment 1 "1_999" (fun _ => none) (fun _ => 0) (fun _ => none)
        true true).timeoutNotified = false ∧
    (∀ j ∈ (monitor_payment 1 "1_999" (fun _ => none) (fun _ => 0)
        (fun _ => none) true true).checkIdxs, j < 0) := by
  have h := C5_invalidation 1 "1_999" (fun _ => none) (fun _ => 0)
    (fun _ => none) true true 0 (fun j hj => absurd hj (Nat.not_lt_zero j))
    (fun _ _ => rfl) (Nat.zero_le max_checks)
  exact ⟨h.1, h.2.1, h.2.2.2.2.1⟩

/-! ## C10: `/start` during `funded_waiting` -/

/-- C10: `/start` unconditionally removes the caller's session entry
whatever its step, touches no other user's session and no wallet record;
consequently a monitor whose session store yields `none` from poll `i0` on
stops silently (no release, no timeout notification, no further balance
queries) and its wallet record persists unchanged — in `waiting_payment`,
with no automatic resolution left. -/
theorem C10_start_reset :
    (∀ (u : ℕ) (sessions : SessionStore) (wallets : WalletStore),
      (start_handler u sessions wallets).sessions u = none ∧
      (start_handler u sessions wallets).wallets = wallets ∧
      (start_handler u sessions wallets).msgs = [Msg.welcome] ∧
      ∀ v, v ≠ u → (start_handler u sessions wallets).sessions v = sessions v) ∧
    (∀ (u : ℕ) (tid : String) (env : ℕ → Option Session) (bal : ℕ → ℚ)
        (w : WalletStore) (so fo : Bool) (i0 : ℕ) (rec : WalletRecord),
      (∀ j, j < i0 → ∃ s addr amt, env j = some s ∧
        s.step = Step.completed ∧ s.transaction_id = some tid ∧
        s.escrow_address = some addr ∧ s.amount = some amt ∧ bal j < amt) →
      (∀ j, i0 ≤ j → env j = none) → i0 ≤ max_checks → w tid = some rec →
      (monitor_payment u tid env bal w so fo).releasedAt = none ∧
      (monitor_payment u tid env bal w so fo).timeoutNotified = false ∧
      (monitor_payment u tid env bal w so fo).wallets tid = some rec ∧
      (∀ j ∈ (monitor_payment u tid env bal w so fo).checkIdxs, j < i0) ∧
      (∀ m ∈ (monitor_payment u tid env bal w so fo).msgs,
        ∃ c e o, c < i0 ∧ m = Msg.statusUpdate c e o)) := by
  constructor
  · intro u sessions wallets
    refine ⟨?_, rfl, rfl, ?_⟩
    · simp [start_handler, mapDel]
    · intro v hv
      simp [start_handler, mapDel, hv]
  · intro u tid env bal w so fo i0 rec hpre hgone hi0 hrec
    have hpost : ∀ j, i0 ≤ j → monitor_session_valid tid (env j) = false := by
      intro j hj
      rw [hgone j hj]
      rfl
    simp only [monitor_payment]
    have h := monitor_loop_invalidated u tid env bal w so fo i0 hpre hpost hi0
      (max_checks + 1) 0 (Nat.zero_le i0)
    exact ⟨h.1, h.2.1, by rw [h.2.2.1]; exact hrec, h.2.2.2.2.1, h.2.2.2.2.2⟩

/-- The wallet record of the C10 witness. -/
def c10_rec : WalletRecord :=
  { address := "ESCROWADDR10", private_key := "K10", user_id := 5,
    seller_wallet := "SELLERADDR10", amount := 2, fee_amount := 1 / 10,
    seller_amount := 19 / 10, status := "waiting_payment",
    created_timestamp := 500, transaction_id := "5_500" }

/-- Witness for `C10_start_reset`: after a reset the monitor of `"5_500"`
finds no session from its first poll on; it releases nothing, notifies
nothing, and the record survives untouched. -/
theorem C10_start_reset_witness :
    (monitor_payment 5 "5_500" (fun _ => none) (fun _ => 0)
        (fun t => if t = "5_500" then some c10_rec else none) true
        true).releasedAt = none ∧
    (monitor_payment 5 "5_500" (fun _ => none) (fun _ => 0)
        (fun t => if t = "5_500" then some c10_rec else none) true
        true).wallets "5_500" = some c10_rec := by
  have h := C10_start_reset.2 5 "5_500" (fun _ => none) (fun _ => 0)
    (fun t => if t = "5_500" then some c10_rec else none) true true 0 c10_rec
    (fun j hj => absurd hj (Nat.not_lt_zero j)) (fun _ _ => rfl)
    (Nat.zero_le max_checks) rfl
  exact ⟨h.1, h.2.2.1⟩

/-! ## C7: transaction-id issuance

Line 509 would render `f"{user_id}_{int(time.time())}"`, but the bare name
`user_id` is unbound inside `handle_amount_input` (the function binds only
`msg` and `session`; line 547 spells out `msg.from_user.id`, and no global
`user_id` exists), so the line raises `NameError` and the `except` at
line 549 takes over: the source never completes a wallet provisioning, and
no transaction id is ever issued. -/

/-- No run of the amount handler spawns a monitor or returns an issued id:
every `prov` outcome ends in the failure branch. -/
theorem handle_amount_input_spawned (user_id now : ℕ) (sess : Session)
    (parsedAmount : Option ℚ) (prov : ProvisionOutcome)
    (sessions : SessionStore) (wallets : WalletStore) :
    (handle_amount_input user_id now sess parsedAmount prov sessions
      wallets).spawned = none := by
  cases parsedAmount with
  | none => rfl
  | some a =>
    by_cases ha : a ≤ 0
    · simp [handle_amount_input, ha]
    · cases prov with
      | fail => simp [handle_amount_input, ha]
      | ok addr pk => simp [handle_amount_input, ha]

/-- No run of the amount handler writes the wallet-record store. -/
theorem handle_amount_input_wallets (user_id now : ℕ) (sess : Session)
    (parsedAmount : Option ℚ) (prov : ProvisionOutcome)
    (sessions : SessionStore) (wallets : WalletStore) :
    (handle_amount_input user_id now sess parsedAmount prov sessions
      wallets).wallets = wallets := by
  cases parsedAmount with
  | none => rfl
  | some a =>
    by_cases ha : a ≤ 0
    · simp [handle_amount_input, ha]
    · cases prov with
      | fail => simp [handle_amount_input, ha]
      | ok addr pk => simp [handle_amount_input, ha]

/-- No routed text message spawns a monitor or issues an id. -/
theorem handle_text_messages_spawned (user_id msgTime now : ℕ) (text : String)
    (parsedAmount : Option ℚ) (prov : ProvisionOutcome)
    (sessions : SessionStore) (wallets : WalletStore) :
    (handle_text_messages user_id msgTime now text parsedAmount prov sessions
      wallets).spawned = none := by
  by_cases h300 : 300 < now - msgTime
  · simp [handle_text_messages, h300]
  · cases hs : sessions user_id with
    | none => simp [handle_text_messages, h300, hs]
    | some s =>
      by_cases h1800 : 1800 < now - s.started_at
      · simp [handle_text_messages, h300, hs, h1800]
      · cases hstep : s.step <;>
          simp [handle_text_messages, h300, hs, h1800, hstep,
            handle_amount_input_spawned]

/-- A mid-flow session about to enter its amount, for the C7 evaluation. -/
def c7_fail_sess : Session :=
  { step := Step.waiting_amount, started_at := 0,
    seller_wallet := some "SELLERADDR7" }

/-- The session store holding `c7_fail_sess` for user 1. -/
def c7_fail_sessions : SessionStore :=
  fun u => if u = 1 then some c7_fail_sess else none

/-- C7: the issuance the claim speaks of never happens.  No run of
`handle_amount_input` issues a transaction id or writes a wallet record, no
user event yields an issued id, and at the failing input — a valid amount
with a SUCCESSFUL `generate_escrow_wallet()` — the `NameError` of line 509
lands the session back in `waiting_amount` with the failure notification,
exactly like a provisioning failure. -/
theorem C7_no_transaction_id_issued :
    (∀ (user_id now : ℕ) (sess : Session) (parsedAmount : Option ℚ)
        (prov : ProvisionOutcome) (sessions : SessionStore)
        (wallets : WalletStore),
      (handle_amount_input user_id now sess parsedAmount prov sessions
          wallets).spawned = none ∧
      (handle_amount_input user_id now sess parsedAmount prov sessions
          wallets).wallets = wallets) ∧
    (∀ (user_id : ℕ) (os : Option Session) (ev : Event),
      (user_event_step user_id os ev).issued = none) ∧
    (handle_amount_input 1 100 c7_fail_sess (some (3 / 2))
        (ProvisionOutcome.ok "ESCROWADDR7" "K7") c7_fail_sessions
        (fun _ => none)).sessions 1
      = some { c7_fail_sess with
          amount := some (3 / 2)
          fee_amount := some (fee_amount (3 / 2))
          seller_amount := some (seller_amount (3 / 2))
          step := Step.waiting_amount } ∧
    (handle_amount_input 1 100 c7_fail_sess (some (3 / 2))
        (ProvisionOutcome.ok "ESCROWADDR7" "K7") c7_fail_sessions
        (fun _ => none)).msgs
      = [Msg.generatingWallet, Msg.walletGenFailed] ∧
    (handle_amount_input 1 100 c7_fail_sess (some (3 / 2))
        (ProvisionOutcome.ok "ESCROWADDR7" "K7") c7_fail_sessions
        (fun _ => none)).spawned = none := by
  have h32 : ¬ (3 / 2 : ℚ) ≤ 0 := by norm_num
  refine ⟨?_, ?_, ?_, ?_, ?_⟩
  · intro user_id now sess parsedAmount prov sessions wallets
    exact ⟨handle_amount_input_spawned user_id now sess parsedAmount prov
        sessions wallets,
      handle_amount_input_wallets user_id now sess parsedAmount prov
        sessions wallets⟩
  · intro user_id os ev
    cases ev with
    | startCmd => rfl
    | startEscrow now => rfl
    | textMsg msgTime now text parsedAmount prov =>
      exact handle_text_messages_spawned user_id msgTime now text parsedAmount
        prov (fun u => if u = user_id then os else none) (fun _ => none)
  · simp [handle_amount_input, h32, mapSet]
  · simp [handle_amount_input, h32]
  · simp [handle_amount_input, h32]

end DarkExchange
